import Mathlib

/-!
Verification of the call-lifecycle and buffer-management core of
lib_mysqludf_preg (preg.c and lib_mysqludf_preg_check.c).

The C code is shallowly embedded: pointers become Option values, byte
buffers become lists of bytes (List Nat), C ints become Nat or Int as
appropriate, allocation success becomes an explicit Bool parameter, and
the external PCRE engine calls (pcre_exec, pcre_fullinfo, pcre_compile)
are abstracted as input parameters describing the engine outcome.
-/

namespace Preg

/-- Abstract handle for a compiled PCRE pattern (the engine-internal
representation is irrelevant to the lifecycle layer). -/
abbrev Pat := Nat

/-- The struct preg_s call context from preg.h, with the fields used by
preg.c: the owned compiled pattern, the reusable output buffer, its
capacity, and the constant-pattern flag.  A NULL pointer field is
modelled as none; the buffer is the list of bytes it holds, whose length
is the allocated capacity. -/
structure PregS where
  constant_pattern : Bool
  re : Option Pat
  return_buffer : Option (List Nat)
  return_buffer_size : Nat
deriving Repr, DecidableEq

/-- The parts of the host UDF_INIT handle that preg.c reads or writes:
the per-query context pointer, the maybe_null flag, and the declared
maximum output length (a C unsigned long). -/
structure UdfInit where
  ptr : Option PregS
  maybe_null : Bool
  max_length : Nat
deriving Repr, DecidableEq

/-- The parts of the host UDF_ARGS argument list that the claims touch:
the argument count, the first argument byte buffer (args.args[0], NULL
modelled as none), its declared length (args.lengths[0]), and whether
the first argument is a compile-time-constant SQL NULL (the result of
ghargIsNullConstant, which lives in ghmysql.c outside the provided
sources and is therefore carried as an input flag). -/
structure PregArgs where
  arg_count : Nat
  arg0 : Option (List Nat)
  len0 : Nat
  nullConst0 : Bool
deriving Repr, DecidableEq

/-! ## Occurrence walker: pregSkipToOccurence (preg.c lines 240-273)

pcre_exec is abstracted as `exec : Nat → Int × Nat`, giving, for an
attempt that starts at a subject offset, the return code rc of
pcre_exec and the value ovector[1] (the match end offset relative to
the start of the attempt).  The walker only inspects the sign of rc and
ovector[1], so this interface captures everything the C code uses.

The loop is `while( occurence-- && subject_offset <= subject_len )`:
the counter is decremented first, and the offset bound is checked only
when the counter was nonzero.  The embedding recurses on the counter
(the C counter is an int; the claims only concern values >= 0, which a
Nat models exactly).  The loop state is the position of the last
successful match (ex_subject, kept as a byte offset from the subject
base, initially 0), the offset of the next attempt, the last value
written through the out-pointer rc, and the number of pcre_exec calls
performed so far. -/

/-- One execution of the while loop of pregSkipToOccurence, returning
the final ex_subject offset, the final value of *rc, and the number of
pcre_exec attempts performed. -/
def pregSkipLoop (exec : Nat → Int × Nat) (subjectLen : Nat) :
    Nat → Nat → Nat → Int → Nat → Nat × Int × Nat
  | 0, exSubject, _, rc, attempts => (exSubject, rc, attempts)
  | occ + 1, exSubject, subjectOffset, rc, attempts =>
    if subjectOffset ≤ subjectLen then
      let r := exec subjectOffset
      if r.1 ≤ 0 then
        (exSubject, r.1, attempts + 1)
      else
        pregSkipLoop exec subjectLen occ subjectOffset (subjectOffset + r.2) r.1 (attempts + 1)
    else
      (exSubject, rc, attempts)

/-- pregSkipToOccurence.  The returned pointer is modelled as an Option
byte offset into the subject (none for NULL).  rcIn is the value the
caller left in the int pointed to by rc, and rcPtrNonNull records
whether the caller passed a non-null rc pointer: the C source ends with
`if( rc > 0 ) ret = ex_subject ;` which compares the POINTER rc against
zero, not the pointed-to value *rc, so the guard holds exactly when the
rc pointer is non-null (every caller passes the address of a local, so
in practice it always holds). -/
def pregSkipToOccurence (exec : Nat → Int × Nat) (subjectLen : Nat)
    (occurence : Nat) (rcIn : Int) (rcPtrNonNull : Bool) : Option Nat × Int × Nat :=
  let r := pregSkipLoop exec subjectLen occurence 0 0 rcIn 0
  (if rcPtrNonNull then some r.1 else none, r.2.1, r.2.2)

/-! ## Diagnostic messages and the pattern compiler entry
(preg.c lines 66-92 and 114-124) -/

/-- strncpy of a diagnostic literal into a buffer of length msglen:
at most msglen characters of the source are written. -/
def strncpyMsg (src : List Char) (msglen : Nat) : List Char :=
  src.take msglen

/-- Modelled from the spec: ghargdup (ghmysql.c, which is part of this
repository but not among the provided sources) duplicates argument i of
the UDF argument list into a fresh null-terminated string.  Per the
spec, the compile entry "fails with EmptyPattern if the argument is
absent or zero-length, with OutOfMemory if argument duplication fails",
so ghargdup yields none when the argument pointer is NULL, when its
length is zero, or when the allocation fails (dupOk = false). -/
def ghargdup (arg : Option (List Nat)) (len : Nat) (dupOk : Bool) : Option (List Nat) :=
  match arg with
  | none => none
  | some bytes => if len = 0 then none else if dupOk then some (bytes.take len) else none

/-- Modelled from the spec: compileRegex (from_php.c, part of this
repository but not among the provided sources) parses the delimiters
and modifiers of the pattern and compiles it with the engine, and on
failure writes "an engine-supplied CompileError(offset, message)"
diagnostic into the bounded message buffer.  The engine outcome is
abstracted as an input pair of the resulting compiled pattern (none on
failure) and the raw engine diagnostic text; the written message is
the diagnostic truncated to the buffer length. -/
def compileRegex (engineOutcome : Option Pat × List Char) (msglen : Nat) :
    Option Pat × List Char :=
  match engineOutcome with
  | (some re, _) => (some re, [])
  | (none, diag) => (none, strncpyMsg diag msglen)

/-- pregCompileRegexArg (preg.c lines 66-92): null-terminate the first
argument via ghargdup and compile it.  If duplication yields NULL, the
message distinguishes a present non-empty argument (out of memory) from
an absent or empty one (empty pattern).  The returned pair is the
compiled pattern (none for NULL) and the message buffer contents,
initially emptied by `*msg = 0`. -/
def pregCompileRegexArg (arg0 : Option (List Nat)) (len0 : Nat) (dupOk : Bool)
    (engineOutcome : Option Pat × List Char) (msglen : Nat) : Option Pat × List Char :=
  match ghargdup arg0 len0 dupOk with
  | none =>
    if len0 ≠ 0 ∧ arg0.isSome then
      (none, strncpyMsg "Out of memory".toList msglen)
    else
      (none, strncpyMsg "Empty pattern".toList msglen)
  | some _ => compileRegex engineOutcome msglen

/-- initPtrInfo (preg.c lines 114-124): compile the regex with a
128-byte message buffer and store it in ptr.re; returns true (C 1) on
error, false (C 0) on success, together with the updated context and
the message written. -/
def initPtrInfo (p : PregS) (a : PregArgs) (dupOk : Bool)
    (engineOutcome : Option Pat × List Char) : Bool × PregS × List Char :=
  match pregCompileRegexArg a.arg0 a.len0 dupOk engineOutcome 128 with
  | (none, m) => (true, p, m)
  | (some re, m) => (false, { p with re := some re }, m)

/-! ## Capture scratch allocator: pregCreateOffsetsVector
(preg.c lines 148-172)

pcre_fullinfo with PCRE_INFO_CAPTURECOUNT is abstracted as
captureInfo : Option Nat — none when the call returns a negative code,
some n when it reports n capture groups.  The returned vector is
modelled by its allocated capacity (its contents are uninitialized);
the second component is the out-parameter count. -/

/-- pregCreateOffsetsVector: `*count = 0`, query the capture count,
then `++oveccount ; oveccount *= 3`, allocate, and on success set
*count to the capacity. -/
def pregCreateOffsetsVector (captureInfo : Option Nat) (allocOk : Bool) : Option Nat × Nat :=
  match captureInfo with
  | none => (none, 0)
  | some n =>
    let oveccount := (n + 1) * 3
    if allocOk then (some oveccount, oveccount) else (none, 0)

/-! ## Context teardown: destroyPtrInfo and pregDeInit
(preg.c lines 282-293 and 307-318)

Each free is counted, so exactly-once release and the absence of
double frees are statable. -/

/-- destroyPtrInfo: pcre_free the compiled pattern if present and NULL
the field, free the return buffer if present and NULL the field.
Returns the updated context and the number of frees performed. -/
def destroyPtrInfo (p : PregS) : PregS × Nat :=
  let reFrees := if p.re.isSome then 1 else 0
  let bufFrees := if p.return_buffer.isSome then 1 else 0
  ({ p with re := none, return_buffer := none }, reFrees + bufFrees)

/-- pregDeInit: if initid.ptr is non-NULL, destroy its members, free
the context itself (one more free), and NULL initid.ptr; otherwise do
nothing.  Returns the updated handle and the number of frees. -/
def pregDeInit (u : UdfInit) : UdfInit × Nat :=
  match u.ptr with
  | none => (u, 0)
  | some p => ({ u with ptr := none }, (destroyPtrInfo p).2 + 1)

/-! ## Shared init: pregInit (preg.c lines 344-405) -/

/-- Conversion of the C unsigned long max_length to a C int, as in the
source condition `((int)initid->max_length) > 0`: the value is reduced
modulo 2^32 and interpreted as a two's-complement signed 32-bit
integer (the universal behaviour of the implementation-defined
unsigned-to-signed conversion on the supported platforms). -/
def toCInt (n : Nat) : Int :=
  if n % 2 ^ 32 < 2 ^ 31 then ((n % 2 ^ 32 : Nat) : Int)
  else ((n % 2 ^ 32 : Nat) : Int) - 2 ^ 32

/-- The output-buffer sizing and allocation at the end of pregInit
(preg.c lines 391-402): if the int cast of max_length is positive the
capacity is max_length + 1, otherwise the 1024000-byte default; then
malloc that many bytes (contents indeterminate; modelled as zeros,
none of the claims depend on fresh-buffer contents).  The malloc result
is not checked by the source, so a failed allocation (bufAllocOk =
false) still leaves the sized capacity with a NULL buffer. -/
def allocReturnBuffer (p : PregS) (maxLength : Nat) (bufAllocOk : Bool) : PregS :=
  let sz := if 0 < toCInt maxLength then maxLength + 1 else 1024000
  { p with return_buffer_size := sz,
           return_buffer := if bufAllocOk then some (List.replicate sz 0) else none }

/-- pregInit (preg.c lines 344-405), without GH_1_0_NULL_HANDLING
(not defined in the default build).  calloc the zeroed context
(callocOk = false gives NULL and an error return); mark the
constant-pattern flag for a constant NULL pattern; coerce the first two
argument types to strings (not modelled: the claims do not touch the
args type array); if the first argument is present, compile it via
initPtrInfo, failing on compile error with the context left partially
initialized (re = NULL, no buffer); finally size and allocate the
output buffer.  Returns the C my_bool result (true = 1 = error) and
the updated handle. -/
def pregInit (u : UdfInit) (a : PregArgs) (callocOk dupOk : Bool)
    (engineOutcome : Option Pat × List Char) (bufAllocOk : Bool) : Bool × UdfInit :=
  if callocOk = false then
    (true, { u with ptr := none })
  else
    let p0 : PregS :=
      { constant_pattern := false, re := none, return_buffer := none, return_buffer_size := 0 }
    let p1 := if a.nullConst0 then { p0 with constant_pattern := true } else p0
    if a.arg_count ≠ 0 ∧ a.arg0.isSome then
      match initPtrInfo p1 a dupOk engineOutcome with
      | (true, p2, _) => (true, { u with ptr := some p2 })
      | (false, p2, _) =>
        let p3 := { p2 with constant_pattern := true }
        (false, { u with ptr := some (allocReturnBuffer p3 u.max_length bufAllocOk) })
    else
      let p2 := { p1 with constant_pattern := false }
      (false, { u with ptr := some (allocReturnBuffer p2 u.max_length bufAllocOk) })

/-! ## Output buffer copy: pregCopyToReturnBuffer
(preg.c lines 428-451) -/

/-- pregCopyToReturnBuffer: if l + 1 exceeds the current capacity,
malloc a fresh buffer of exactly l + 1 bytes (on failure return -1
leaving the context untouched), free the old buffer and install the new
one; then memcpy the l bytes of s and write a terminating 0 at index l.
s is the byte sequence at the source pointer and l the length argument
(callers pass l = s.length; memcpy is modelled as s.take l).  In the
no-growth branch the source assumes a valid buffer of the recorded
capacity (getD [] stands for the dereference). -/
def pregCopyToReturnBuffer (allocOk : Bool) (p : PregS) (s : List Nat) (l : Nat) :
    Int × PregS :=
  if l + 1 > p.return_buffer_size then
    if allocOk then
      ((l : Int), { p with return_buffer := some (s.take l ++ [0]),
                           return_buffer_size := l + 1 })
    else
      (-1, p)
  else
    let written := (s.take l ++ [0]) ++ (p.return_buffer.getD []).drop (l + 1)
    ((l : Int), { p with return_buffer := some written })

/-! ## Output materializer: pregMoveToReturnValues
(preg.c lines 485-536) -/

/-- The outputs of pregMoveToReturnValues: whether the returned char
pointer is NULL (it is ptr.return_buffer otherwise), the value stored
through the length pointer, the final values of *is_null and *error,
the updated context, and whether free(s) was called on the passed-in
string. -/
structure MoveRes where
  retNull : Bool
  length : Nat
  is_null : Bool
  error : Bool
  state : PregS
  freedS : Bool
deriving Repr, DecidableEq

/-- pregMoveToReturnValues.  Defaults first: `*error = 1`,
`*length = 0`, `*ptr->return_buffer = 0` (byte 0 of the buffer is
cleared, modelled with List.set), and `*is_null = 1` when
initid.maybe_null — when maybe_null is unset, *is_null keeps the value
isNullIn the host left in it.  Then: for s_len >= 0 with s present,
copy and free s, clearing is_null, error and setting length on a
successful copy; for s_len >= 0 with s NULL, clear is_null and error
(valid empty result, s not freed since free sits inside the if( s )
branch); for s_len < 0, only the engine diagnostic is logged — s is
NOT freed on this path.  The function returns NULL when the final
*is_null is set, and the return buffer otherwise. -/
def pregMoveToReturnValues (maybeNull : Bool) (allocOk : Bool) (p0 : PregS)
    (isNullIn : Bool) (s : Option (List Nat)) (sLen : Int) : MoveRes :=
  let p1 := { p0 with return_buffer := p0.return_buffer.map (fun b => b.set 0 0) }
  let isNull0 := if maybeNull then true else isNullIn
  if 0 ≤ sLen then
    match s with
    | some bytes =>
      let r := pregCopyToReturnBuffer allocOk p1 bytes sLen.toNat
      if 0 ≤ r.1 then
        { retNull := false, length := r.1.toNat, is_null := false, error := false,
          state := r.2, freedS := true }
      else
        { retNull := isNull0, length := 0, is_null := isNull0, error := true,
          state := r.2, freedS := true }
    | none =>
      { retNull := false, length := 0, is_null := false, error := false,
        state := p1, freedS := false }
  else
    { retNull := isNull0, length := 0, is_null := isNull0, error := true,
      state := p1, freedS := false }

/-! ## The PREG_CHECK init hook: preg_check_init
(lib_mysqludf_preg_check.c lines 123-135) -/

/-- preg_check_init: with an argument count other than 1 write a
message and return 1; otherwise clear maybe_null, call pregInit
DISCARDING its result, and return 0.  Returns the C my_bool result and
the updated handle. -/
def preg_check_init (u : UdfInit) (a : PregArgs) (callocOk dupOk : Bool)
    (engineOutcome : Option Pat × List Char) (bufAllocOk : Bool) : Bool × UdfInit :=
  if a.arg_count ≠ 1 then
    (true, u)
  else
    let u1 := { u with maybe_null := false }
    (false, (pregInit u1 a callocOk dupOk engineOutcome bufAllocOk).2)

/-! ## Theorems -/

/-- C1: the claim states that pregSkipToOccurence with occurrence_index
0 performs no match attempts and returns a null match-start pointer.
The code performs no attempts (third component 0), but it returns the
subject start (some 0), not NULL: the final guard of the source,
`if( rc > 0 )`, tests the out-POINTER rc instead of the last return
code *rc, and the pointer passed by every caller is non-null, so
ret = ex_subject = subject is returned.  Shown here at a concrete
failing input: an engine that would match anywhere, subject length 3,
occurrence 0, caller value *rc = 7. -/
theorem pregSkipToOccurence_occurrence_zero_bug :
    pregSkipToOccurence (fun _ => (1, 1)) 3 0 7 true = (some 0, 7, 0) ∧
    (some 0 : Option Nat) ≠ none := by
  exact ⟨rfl, by simp⟩

/-- C2: the claim states that when occurrence_index k exceeds the
number of actual matches, pregSkipToOccurence returns a null pointer.
At the failing input below the engine finds no match at all (every
attempt returns PCRE_ERROR_NOMATCH = -1), k = 1, subject length 3: the
walker stops early after the single failed attempt (one attempt, last
return code -1) as claimed, but it returns the subject start (some 0)
instead of NULL, again because the final guard tests the pointer rc
rather than *rc. -/
theorem pregSkipToOccurence_too_many_occurrences_bug :
    pregSkipToOccurence (fun _ => (-1, 0)) 3 1 7 true = (some 0, -1, 1) ∧
    (some 0 : Option Nat) ≠ none := by
  exact ⟨rfl, by simp⟩

/-- C5: on success pregCreateOffsetsVector returns capacity and
out-count both exactly 3 * (capture count + 1); on introspection
failure or allocation failure it returns NULL with count 0. -/
theorem pregCreateOffsetsVector_capacity (n : Nat) (allocOk : Bool) :
    pregCreateOffsetsVector (some n) true = (some (3 * (n + 1)), 3 * (n + 1)) ∧
    pregCreateOffsetsVector none allocOk = (none, 0) ∧
    pregCreateOffsetsVector (some n) false = (none, 0) := by
  refine ⟨?_, rfl, rfl⟩
  simp [pregCreateOffsetsVector, Nat.mul_comm]

/-- C7: pregDeInit frees each owned resource exactly once — the free
count of the first call is one per present resource plus one for the
context itself — and leaves the context pointer NULL, so a second call
(or a call on a handle whose ptr is NULL because init never ran)
performs no frees at all. -/
theorem pregDeInit_exactly_once (u : UdfInit) :
    (pregDeInit u).1.ptr = none ∧
    pregDeInit (pregDeInit u).1 = ((pregDeInit u).1, 0) ∧
    (pregDeInit u).2 = (match u.ptr with
      | none => 0
      | some p => (if p.re.isSome then 1 else 0) +
          (if p.return_buffer.isSome then 1 else 0) + 1) := by
  cases u with
  | mk ptr mn ml =>
    cases ptr with
    | none => exact ⟨rfl, rfl, rfl⟩
    | some p => exact ⟨rfl, rfl, rfl⟩

/-- C10: preg_check_init returns 1 exactly when the argument count is
not 1; with exactly one argument it returns 0 unconditionally.  In
particular (second and third conjuncts, at a concrete input where the
context calloc fails) pregInit reports failure while preg_check_init
still returns success, so init-time errors are not propagated to the
host for PREG_CHECK. -/
theorem preg_check_init_swallows_pregInit_errors (u : UdfInit) (a : PregArgs)
    (callocOk dupOk : Bool) (engineOutcome : Option Pat × List Char) (bufAllocOk : Bool) :
    (preg_check_init u a callocOk dupOk engineOutcome bufAllocOk).1 =
      decide (a.arg_count ≠ 1) ∧
    (pregInit ⟨none, false, 0⟩ ⟨1, none, 0, false⟩ false true (some 0, []) true).1 = true ∧
    (preg_check_init ⟨none, true, 0⟩ ⟨1, none, 0, false⟩ false true (some 0, []) true).1
      = false := by
  refine ⟨?_, rfl, rfl⟩
  by_cases h : a.arg_count = 1
  · simp [preg_check_init, h]
  · simp [preg_check_init, h]

/-- C3: pregMoveToReturnValues with a negative result length sets the
error flag, sets is_null when the context is nullable, and only resets
the output buffer to the empty string (byte 0 cleared, nothing else
changed in the context); with a non-negative length and an absent
source pointer the call is a valid empty result: is_null and error are
both cleared (and the non-NULL return buffer is returned). -/
theorem pregMoveToReturnValues_error_and_empty (maybeNull allocOk : Bool) (p : PregS)
    (isNullIn : Bool) (s : Option (List Nat)) (sLen : Int) :
    (sLen < 0 →
      (pregMoveToReturnValues maybeNull allocOk p isNullIn s sLen).error = true ∧
      (maybeNull = true →
        (pregMoveToReturnValues maybeNull allocOk p isNullIn s sLen).is_null = true) ∧
      (pregMoveToReturnValues maybeNull allocOk p isNullIn s sLen).state =
        { p with return_buffer := p.return_buffer.map (fun b => b.set 0 0) }) ∧
    (0 ≤ sLen → s = none →
      (pregMoveToReturnValues maybeNull allocOk p isNullIn s sLen).is_null = false ∧
      (pregMoveToReturnValues maybeNull allocOk p isNullIn s sLen).error = false ∧
      (pregMoveToReturnValues maybeNull allocOk p isNullIn s sLen).retNull = false) := by
  constructor
  · intro h
    have h2 : ¬ (0 ≤ sLen) := by omega
    refine ⟨by simp [pregMoveToReturnValues, h2], fun hm => ?_, by simp [pregMoveToReturnValues, h2]⟩
    simp [pregMoveToReturnValues, h2, hm]
  · intro h hs
    subst hs
    exact ⟨by simp [pregMoveToReturnValues, h], by simp [pregMoveToReturnValues, h],
      by simp [pregMoveToReturnValues, h]⟩

/-- Witness for C3 at concrete inputs: a negative length (-1) on a
nullable context sets error and is_null and only clears byte 0 of the
buffer; length 0 with an absent source clears is_null and error. -/
theorem pregMoveToReturnValues_error_and_empty_witness :
    ((pregMoveToReturnValues true true ⟨true, some 1, some [9, 9], 2⟩ false
        (some [65]) (-1)).error = true ∧
      (pregMoveToReturnValues true true ⟨true, some 1, some [9, 9], 2⟩ false
        (some [65]) (-1)).state =
        { constant_pattern := true, re := some 1, return_buffer := some [0, 9],
          return_buffer_size := 2 }) ∧
    (pregMoveToReturnValues true true ⟨true, some 1, some [9, 9], 2⟩ false
      none 0).is_null = false := by
  refine ⟨⟨?_, ?_⟩, ?_⟩
  · exact ((pregMoveToReturnValues_error_and_empty true true
      ⟨true, some 1, some [9, 9], 2⟩ false (some [65]) (-1)).1 (by decide)).1
  · have := ((pregMoveToReturnValues_error_and_empty true true
      ⟨true, some 1, some [9, 9], 2⟩ false (some [65]) (-1)).1 (by decide)).2.2
    simpa using this
  · exact ((pregMoveToReturnValues_error_and_empty true true
      ⟨true, some 1, some [9, 9], 2⟩ false none 0).2 (by decide) rfl).1

/-- C4: the growth policy of pregCopyToReturnBuffer.  When len + 1
exceeds the capacity and the single fresh allocation succeeds, the new
capacity is exactly len + 1 and the buffer holds exactly the copied
bytes followed by the terminating 0; when len + 1 fits, the capacity is
unchanged and after the copy the first len + 1 bytes of the buffer are
the copied bytes followed by the terminating 0.  l is the length of the
copied byte sequence s, as at every call site. -/
theorem pregCopyToReturnBuffer_growth_policy (allocOk : Bool) (p : PregS) (s : List Nat) :
    (s.length + 1 > p.return_buffer_size → allocOk = true →
      pregCopyToReturnBuffer allocOk p s s.length =
        ((s.length : Int),
          { p with return_buffer := some (s ++ [0]),
                   return_buffer_size := s.length + 1 })) ∧
    (s.length + 1 ≤ p.return_buffer_size →
      (pregCopyToReturnBuffer allocOk p s s.length).2.return_buffer_size =
        p.return_buffer_size ∧
      (pregCopyToReturnBuffer allocOk p s s.length).1 = (s.length : Int) ∧
      ((pregCopyToReturnBuffer allocOk p s s.length).2.return_buffer.getD
          []).take (s.length + 1) = s ++ [0]) := by
  constructor
  · intro h ha
    subst ha
    simp [pregCopyToReturnBuffer, h]
  · intro h
    have h2 : ¬ (s.length + 1 > p.return_buffer_size) := by omega
    refine ⟨by simp [pregCopyToReturnBuffer, h2], by simp [pregCopyToReturnBuffer, h2], ?_⟩
    simp only [pregCopyToReturnBuffer, h2, if_false, Option.getD_some]
    have hl : (s.take s.length ++ [0]).length = s.length + 1 := by simp
    rw [List.take_left' hl, List.take_length]

/-- Witness for C4 at concrete inputs: copying [7, 8] into a context of
capacity 2 grows it to capacity exactly 3 holding [7, 8, 0]; copying
[7] into a context of capacity 4 keeps capacity 4 with [7, 0] as the
first two bytes. -/
theorem pregCopyToReturnBuffer_growth_policy_witness :
    pregCopyToReturnBuffer true ⟨true, none, some [9, 9], 2⟩ [7, 8] 2 =
      ((2 : Int), { constant_pattern := true, re := none,
                    return_buffer := some [7, 8, 0], return_buffer_size := 3 }) ∧
    ((pregCopyToReturnBuffer true ⟨true, none, some [9, 9, 9, 9], 4⟩ [7] 1).2.return_buffer_size = 4 ∧
      (pregCopyToReturnBuffer true ⟨true, none, some [9, 9, 9, 9], 4⟩ [7] 1).1 = (1 : Int) ∧
      ((pregCopyToReturnBuffer true ⟨true, none, some [9, 9, 9, 9], 4⟩ [7] 1).2.return_buffer.getD
          []).take 2 = [7, 0]) := by
  constructor
  · have := (pregCopyToReturnBuffer_growth_policy true
      ⟨true, none, some [9, 9], 2⟩ [7, 8]).1 (by decide) rfl
    simpa using this
  · have := (pregCopyToReturnBuffer_growth_policy true
      ⟨true, none, some [9, 9, 9, 9], 4⟩ [7]).2 (by decide)
    simpa using this

/-- Length bound of a strncpy-written diagnostic. -/
theorem strncpyMsg_length_le (src : List Char) (msglen : Nat) :
    (strncpyMsg src msglen).length ≤ msglen := by
  simp [strncpyMsg]

/-- C6: pregCompileRegexArg writes the Empty-pattern diagnostic when
the pattern argument is absent or zero-length, the Out-of-memory
diagnostic when duplicating a present non-empty argument fails, and the
engine diagnostic when the engine rejects the pattern; in every case
the written diagnostic is bounded by the caller-supplied buffer
length. -/
theorem pregCompileRegexArg_diagnostics (arg0 : Option (List Nat)) (len0 : Nat)
    (dupOk : Bool) (engineOutcome : Option Pat × List Char) (msglen : Nat) :
    ((arg0 = none ∨ len0 = 0) →
      pregCompileRegexArg arg0 len0 dupOk engineOutcome msglen =
        (none, strncpyMsg "Empty pattern".toList msglen)) ∧
    (arg0.isSome → len0 ≠ 0 → dupOk = false →
      pregCompileRegexArg arg0 len0 dupOk engineOutcome msglen =
        (none, strncpyMsg "Out of memory".toList msglen)) ∧
    (∀ diag, arg0.isSome → len0 ≠ 0 → dupOk = true → engineOutcome = (none, diag) →
      pregCompileRegexArg arg0 len0 dupOk engineOutcome msglen =
        (none, strncpyMsg diag msglen)) ∧
    (pregCompileRegexArg arg0 len0 dupOk engineOutcome msglen).2.length ≤ msglen := by
  cases arg0 with
  | none =>
    refine ⟨fun _ => by simp [pregCompileRegexArg, ghargdup],
      fun h => by simp at h, fun diag h => by simp at h, ?_⟩
    simpa [pregCompileRegexArg, ghargdup] using strncpyMsg_length_le _ msglen
  | some bytes =>
    by_cases h0 : len0 = 0
    · refine ⟨fun _ => by simp [pregCompileRegexArg, ghargdup, h0],
        fun _ h => absurd h0 h, fun diag _ h => absurd h0 h, ?_⟩
      simpa [pregCompileRegexArg, ghargdup, h0] using strncpyMsg_length_le _ msglen
    · cases dupOk with
      | false =>
        refine ⟨fun hc => ?_, fun _ _ _ => by simp [pregCompileRegexArg, ghargdup, h0],
          fun diag _ _ hd => by simp at hd, ?_⟩
        · rcases hc with hc | hc
          · simp at hc
          · exact absurd hc h0
        · simpa [pregCompileRegexArg, ghargdup, h0] using strncpyMsg_length_le _ msglen
      | true =>
        refine ⟨fun hc => ?_, fun _ _ hd => by simp at hd, fun diag _ _ _ he => ?_, ?_⟩
        · rcases hc with hc | hc
          · simp at hc
          · exact absurd hc h0
        · subst he
          simp [pregCompileRegexArg, ghargdup, h0, compileRegex]
        · rcases engineOutcome with ⟨re, diag⟩
          cases re with
          | none =>
            simpa [pregCompileRegexArg, ghargdup, h0, compileRegex] using
              strncpyMsg_length_le diag msglen
          | some r =>
            simp [pregCompileRegexArg, ghargdup, h0, compileRegex]

/-- Witness for C6 at concrete inputs: an absent argument gives the
Empty-pattern diagnostic, a failing duplication of a present non-empty
argument gives the Out-of-memory diagnostic, an engine failure hands
back the (truncated) engine diagnostic, and the diagnostic length is
bounded by the buffer length 128. -/
theorem pregCompileRegexArg_diagnostics_witness :
    pregCompileRegexArg none 3 true (some 0, []) 128 =
      (none, strncpyMsg "Empty pattern".toList 128) ∧
    pregCompileRegexArg (some [65]) 1 false (some 0, []) 128 =
      (none, strncpyMsg "Out of memory".toList 128) ∧
    pregCompileRegexArg (some [65]) 1 true (none, "bad pattern".toList) 128 =
      (none, strncpyMsg "bad pattern".toList 128) ∧
    (pregCompileRegexArg (some [65]) 1 true (none, "bad pattern".toList) 128).2.length ≤ 128 := by
  refine ⟨?_, ?_, ?_, ?_⟩
  · exact (pregCompileRegexArg_diagnostics none 3 true (some 0, []) 128).1 (Or.inl rfl)
  · exact (pregCompileRegexArg_diagnostics (some [65]) 1 false (some 0, []) 128).2.1
      (by decide) (by decide) rfl
  · exact (pregCompileRegexArg_diagnostics (some [65]) 1 true
      (none, "bad pattern".toList) 128).2.2.1 "bad pattern".toList (by decide) (by decide) rfl rfl
  · exact (pregCompileRegexArg_diagnostics (some [65]) 1 true
      (none, "bad pattern".toList) 128).2.2.2

/-- C8 counterexample: a successful init with the positive declared
maximum output length 2^31 sets the output buffer capacity to the
1024000-byte default, not to 2^31 + 1: the source condition is
`((int)initid->max_length) > 0`, and the int conversion of 2^31 is
negative, so the claim that every positive declared maximum yields
capacity max_length + 1 is false. -/
theorem pregInit_pos_max_length_not_always_plus_one :
    (pregInit ⟨none, true, 2 ^ 31⟩ ⟨1, none, 0, false⟩ true true (some 0, []) true).1
      = false ∧
    (0 : Nat) < 2 ^ 31 ∧
    ((pregInit ⟨none, true, 2 ^ 31⟩ ⟨1, none, 0, false⟩ true true
        (some 0, []) true).2.ptr.map PregS.return_buffer_size) = some 1024000 ∧
    (1024000 : Nat) ≠ 2 ^ 31 + 1 := by
  refine ⟨rfl, by norm_num, rfl, by norm_num⟩

/-- C8 amended: every successful pregInit sets the output buffer
capacity to max_length + 1 when the C int conversion of the declared
max_length is positive (in particular whenever 0 < max_length < 2^31),
and to the 1024000-byte default otherwise. -/
theorem pregInit_buffer_capacity (u : UdfInit) (a : PregArgs) (callocOk dupOk : Bool)
    (engineOutcome : Option Pat × List Char) (bufAllocOk : Bool)
    (h : (pregInit u a callocOk dupOk engineOutcome bufAllocOk).1 = false) :
    ((pregInit u a callocOk dupOk engineOutcome bufAllocOk).2.ptr.map
        PregS.return_buffer_size) =
      some (if 0 < toCInt u.max_length then u.max_length + 1 else 1024000) := by
  cases callocOk with
  | false => simp [pregInit] at h
  | true =>
    by_cases hc : a.arg_count ≠ 0 ∧ a.arg0.isSome
    · rcases h3 : initPtrInfo
        (if a.nullConst0 then
          { constant_pattern := true, re := none, return_buffer := none,
            return_buffer_size := 0 }
         else
          { constant_pattern := false, re := none, return_buffer := none,
            return_buffer_size := 0 }) a dupOk engineOutcome with ⟨b, p2, m⟩
      cases b with
      | true =>
        have : (pregInit u a true dupOk engineOutcome bufAllocOk).1 = true := by
          simp [pregInit, hc, h3]
        rw [this] at h
        exact absurd h (by simp)
      | false =>
        simp [pregInit, hc, h3, allocReturnBuffer]
    · simp [pregInit, hc, allocReturnBuffer]

/-- Witness for C8 amended at max_length = 5 (int conversion positive,
capacity 6) and at max_length = 0 (capacity 1024000). -/
theorem pregInit_buffer_capacity_witness :
    ((pregInit ⟨none, true, 5⟩ ⟨1, none, 0, false⟩ true true
        (some 0, []) true).2.ptr.map PregS.return_buffer_size) = some 6 ∧
    ((pregInit ⟨none, true, 0⟩ ⟨1, none, 0, false⟩ true true
        (some 0, []) true).2.ptr.map PregS.return_buffer_size) = some 1024000 := by
  constructor
  · have := pregInit_buffer_capacity ⟨none, true, 5⟩ ⟨1, none, 0, false⟩ true true
      (some 0, []) true rfl
    simpa [toCInt] using this
  · have := pregInit_buffer_capacity ⟨none, true, 0⟩ ⟨1, none, 0, false⟩ true true
      (some 0, []) true rfl
    simpa [toCInt] using this

/-- C9 counterexample: with a present source string and the negative
result length -1, pregMoveToReturnValues does not free the source
(free(s) sits inside the s_len >= 0, s non-NULL branch of the source),
so the claim that the source is released regardless of success,
including for negative result lengths, is false. -/
theorem pregMoveToReturnValues_negative_len_leaks_source :
    (pregMoveToReturnValues true true ⟨true, some 1, some [9, 9, 9, 9], 4⟩ false
      (some [65]) (-1)).freedS = false := rfl

/-- C9 amended: with a present source string, pregMoveToReturnValues
frees the source exactly when the result length is non-negative — it is
freed after the copy attempt whether or not the copy succeeds, but a
negative result length leaves it unfreed. -/
theorem pregMoveToReturnValues_frees_source_iff_nonneg (maybeNull allocOk : Bool)
    (p : PregS) (isNullIn : Bool) (bytes : List Nat) (sLen : Int) :
    (0 ≤ sLen →
      (pregMoveToReturnValues maybeNull allocOk p isNullIn (some bytes) sLen).freedS
        = true) ∧
    (sLen < 0 →
      (pregMoveToReturnValues maybeNull allocOk p isNullIn (some bytes) sLen).freedS
        = false) := by
  constructor
  · intro h
    by_cases hcopy : 0 ≤ (pregCopyToReturnBuffer allocOk
        { p with return_buffer := p.return_buffer.map (fun b => b.set 0 0) }
        bytes sLen.toNat).1
    · simp [pregMoveToReturnValues, h, hcopy]
    · simp [pregMoveToReturnValues, h, hcopy]
  · intro h
    have h2 : ¬ (0 ≤ sLen) := by omega
    simp [pregMoveToReturnValues, h2]

/-- Witness for C9 amended: a successful copy (length 2) frees the
source, a failed reallocation (length 7 against capacity 1 with the
allocation refused) still frees the source, and a negative length (-2)
does not. -/
theorem pregMoveToReturnValues_frees_source_iff_nonneg_witness :
    (pregMoveToReturnValues true true ⟨true, some 1, some [9, 9, 9, 9], 4⟩ false
      (some [65, 66]) 2).freedS = true ∧
    (pregMoveToReturnValues true false ⟨true, some 1, some [9], 1⟩ false
      (some [65, 66, 67, 68, 69, 70, 71]) 7).freedS = true ∧
    (pregMoveToReturnValues false false ⟨false, none, some [0], 1⟩ true
      (some [7]) (-2)).freedS = false := by
  refine ⟨?_, ?_, ?_⟩
  · exact (pregMoveToReturnValues_frees_source_iff_nonneg true true
      ⟨true, some 1, some [9, 9, 9, 9], 4⟩ false [65, 66] 2).1 (by decide)
  · exact (pregMoveToReturnValues_frees_source_iff_nonneg true false
      ⟨true, some 1, some [9], 1⟩ false [65, 66, 67, 68, 69, 70, 71] 7).1 (by decide)
  · exact (pregMoveToReturnValues_frees_source_iff_nonneg false false
      ⟨false, none, some [0], 1⟩ true [7] (-2)).2 (by decide)

end Preg
